import Mathlib

/-!
Verification development for the collaboration / session-sync subsystem of the
"quick" AI code-editor repository.  The definitions below are shallow
embeddings of functions from `src/lib/collaboration.ts`, the collaboration
effects of `src/components/CodeEditor.tsx`, and `src/lib/aiService.ts`.
Browser local storage is modelled as an association list of key/value pairs;
timestamps are naturals (milliseconds); the nondeterminism of
`Math.random()` is passed in explicitly as a choice function or a
pre-generated value; the fallible steps of a network request are passed in as
an explicit outcome value.
-/

namespace Quick

/-- The `action` discriminator of a `code_sync` row (`'edit' | 'cursor' | 'language'`). -/
inductive SyncAction
  | edit
  | cursor
  | language
deriving DecidableEq, Repr

/-- Guest permission level of a shared session (`'view' | 'edit'`). -/
inductive Permission
  | view
  | edit
deriving DecidableEq, Repr

/-- One propagated change, mirroring the `CodeSync` interface of
`collaboration.ts`. -/
structure CodeSync where
  id : String
  shared_session_id : String
  user_id : String
  code_content : String
  language : String
  cursor_line : Option Int
  cursor_column : Option Int
  action : SyncAction
  created_at : Nat
deriving DecidableEq, Repr

/-- A shared-session record, mirroring the `SharedSession` interface of
`collaboration.ts`. -/
structure SharedSession where
  id : String
  session_id : String
  share_code : String
  host_user_id : Option String
  guest_user_id : Option String
  permissions : Permission
  is_active : Bool
  connected_at : Option Nat
  created_at : Nat
  expires_at : Nat
deriving DecidableEq, Repr

/-- `localStorage.setItem`: overwrite the value stored under `k`, keeping at
most one entry per key. -/
def lsSet (store : List (String × α)) (k : String) (v : α) : List (String × α) :=
  (k, v) :: store.filter (fun kv => kv.1 ≠ k)

/-- JavaScript `toUpperCase()` on the ASCII strings this code handles:
uppercase every character. -/
def strToUpper (s : String) : String := ⟨s.data.map Char.toUpper⟩

/-- JavaScript `trim()` on the ASCII strings this code handles: strip
leading and trailing whitespace. -/
def strTrim (s : String) : String :=
  let ws := fun c : Char => c = ' ' ∨ c = '\t' ∨ c = '\n' ∨ c = '\r'
  ⟨((s.data.dropWhile ws).reverse.dropWhile ws).reverse⟩

/-- The fixed share-code alphabet of `generateShareCode`
(`'ABCDEFGHJKLMNPQRSTUVWXYZ23456789'`). -/
def shareCodeChars : String := "ABCDEFGHJKLMNPQRSTUVWXYZ23456789"

theorem shareCodeChars_data_length : shareCodeChars.data.length = 32 := rfl

/-- `CollaborationService.generateShareCode`: six characters, each picked from
`shareCodeChars` at index `Math.floor(Math.random() * chars.length)`; the
six random draws are passed in as `rand`. -/
def generateShareCode (rand : Fin 6 → Fin 32) : String :=
  ⟨List.ofFn fun i : Fin 6 =>
    shareCodeChars.data.get ((rand i).cast shareCodeChars_data_length.symm)⟩

/-- `syncs.slice(-50)`: the suffix of the last (at most) 50 entries. -/
def sliceLast (l : List α) (n : Nat) : List α :=
  l.drop (l.length - n)

/-- The shared storage step of `syncCode` / `syncLanguage` / `syncCursor` in
mock mode: `syncs.push(sync); setItem(syncKey, JSON.stringify(syncs.slice(-50)))`. -/
def appendCapped (syncs : List CodeSync) (s : CodeSync) : List CodeSync :=
  sliceLast (syncs ++ [s]) 50

/-- `CollaborationService.syncCode` (mock branch), acting on the session's
sync log: builds an `'edit'` event and appends it with the 50-entry cap.
`i` is the generated event id and `now` the current timestamp. -/
def syncCode (syncs : List CodeSync) (userId sharedSessionId code language : String)
    (cursorLine cursorColumn : Option Int) (i : String) (now : Nat) : List CodeSync :=
  appendCapped syncs
    { id := i, shared_session_id := sharedSessionId, user_id := userId,
      code_content := code, language := language, cursor_line := cursorLine,
      cursor_column := cursorColumn, action := SyncAction.edit, created_at := now }

/-- `CollaborationService.syncLanguage` (mock branch), acting on the session's
sync log. -/
def syncLanguage (syncs : List CodeSync) (userId sharedSessionId language : String)
    (i : String) (now : Nat) : List CodeSync :=
  appendCapped syncs
    { id := i, shared_session_id := sharedSessionId, user_id := userId,
      code_content := "", language := language, cursor_line := none,
      cursor_column := none, action := SyncAction.language, created_at := now }

/-- `CollaborationService.syncCursor` (mock branch), acting on the session's
sync log. -/
def syncCursor (syncs : List CodeSync) (userId sharedSessionId : String)
    (line column : Int) (i : String) (now : Nat) : List CodeSync :=
  appendCapped syncs
    { id := i, shared_session_id := sharedSessionId, user_id := userId,
      code_content := "", language := "", cursor_line := some line,
      cursor_column := some column, action := SyncAction.cursor, created_at := now }

/-- One invocation of a subscriber callback, carrying the payload and the
origin participant id passed to it. -/
inductive Delivery
  | codeChange (code : String) (userId : String)
  | languageChange (language : String) (userId : String)
  | cursorChange (line column : Int) (userId : String)
deriving DecidableEq, Repr

/-- The origin participant id a delivery hands to the callback. -/
def Delivery.originId : Delivery → String
  | Delivery.codeChange _ u => u
  | Delivery.languageChange _ u => u
  | Delivery.cursorChange _ _ u => u

/-- The per-event dispatch shared by both channel backends (the
`if action === 'edit' / 'language' / 'cursor'` cascade): which callback a
sync row triggers, if any. -/
def dispatchSync (sync : CodeSync) : Option Delivery :=
  match sync.action with
  | SyncAction.edit => some (Delivery.codeChange sync.code_content sync.user_id)
  | SyncAction.language => some (Delivery.languageChange sync.language sync.user_id)
  | SyncAction.cursor =>
    match sync.cursor_line, sync.cursor_column with
    | some l, some c => some (Delivery.cursorChange l c sync.user_id)
    | _, _ => none

/-- The realtime-backed channel's `postgres_changes` INSERT handler in
`subscribeToSession`: drops the event when `sync.user_id === this.userId`,
otherwise dispatches on `sync.action`. -/
def handleRealtimeInsert (selfId : String) (sync : CodeSync) : Option Delivery :=
  if sync.user_id = selfId then none
  else dispatchSync sync

/-- The filter step of one `startMockPolling` tick: with no last-seen id,
`syncs.filter(s => s.user_id !== this.userId)`; with a last-seen id,
`syncs.filter(s => s.id > lastSyncId && s.user_id !== this.userId)` (string
comparison on ids). -/
def pollFilter (selfId : String) (lastSyncId : Option String)
    (syncs : List CodeSync) : List CodeSync :=
  match lastSyncId with
  | some last => syncs.filter (fun s => last < s.id ∧ s.user_id ≠ selfId)
  | none => syncs.filter (fun s => s.user_id ≠ selfId)

/-- One tick of `startMockPolling`: filter the log, fire the matching
callback for each new sync in log order, and advance `lastSyncId` to the id
of the last processed sync (unchanged when nothing was processed). -/
def pollTick (selfId : String) (lastSyncId : Option String)
    (syncs : List CodeSync) : List Delivery × Option String :=
  let newSyncs := pollFilter selfId lastSyncId syncs
  (newSyncs.filterMap dispatchSync,
    match newSyncs.getLast? with
    | some s => some s.id
    | none => lastSyncId)

/-- Error cases thrown by `joinSharedSession` in mock mode
(`'Session not found'` and `'Session is not active'`). -/
inductive JoinError
  | sessionNotFound
  | sessionNotActive
deriving DecidableEq, Repr

/-- `CollaborationService.joinSharedSession` (mock branch): looks up
`shared_session_${shareCode.toUpperCase()}` in local storage, rejects a
missing record and an inactive one, then sets `guest_user_id` and
`connected_at` and writes the record back.  Returns the session together
with the updated store. -/
def joinSharedSession (store : List (String × SharedSession)) (userId : String)
    (now : Nat) (shareCode : String) :
    Except JoinError (SharedSession × List (String × SharedSession)) :=
  let sessionKey := "shared_session_" ++ strToUpper shareCode
  match store.lookup sessionKey with
  | none => Except.error JoinError.sessionNotFound
  | some session =>
    if session.is_active = false then Except.error JoinError.sessionNotActive
    else
      let joined := { session with guest_user_id := some userId,
                                   connected_at := some now }
      Except.ok (joined, lsSet store sessionKey joined)

/-- `CollaborationService.createSharedSession` (mock branch): builds a fresh
active record with no guest and `expires_at = now + 24h`, stores it under
`shared_session_${shareCode}`, and returns it.  The generated uuid and share
code are passed in; the call never checks for an existing record with the
same code. -/
def createSharedSession (store : List (String × SharedSession))
    (userId sessionId : String) (permissions : Permission)
    (uuid shareCode : String) (now : Nat) :
    SharedSession × List (String × SharedSession) :=
  let mockSession : SharedSession :=
    { id := uuid, session_id := sessionId, share_code := shareCode,
      host_user_id := some userId, guest_user_id := none,
      permissions := permissions, is_active := true, connected_at := none,
      created_at := now, expires_at := now + 24 * 60 * 60 * 1000 }
  (mockSession, lsSet store ("shared_session_" ++ shareCode) mockSession)

/-- `CollaborationService.endSession` (mock branch): removes the
`code_sync_${sharedSessionId}` log from local storage and nothing else; the
session store is untouched whatever `isHost` is. -/
def endSessionMock (sessions : List (String × SharedSession))
    (syncLogs : List (String × List CodeSync)) (sharedSessionId : String)
    (_isHost : Bool) :
    List (String × SharedSession) × List (String × List CodeSync) :=
  (sessions, syncLogs.filter (fun kv => kv.1 ≠ "code_sync_" ++ sharedSessionId))

/-- `CollaborationService.endSession` (backend branch): when `isHost`, run
`update({ is_active: false })` on the rows whose `id` equals
`sharedSessionId`; otherwise do nothing. -/
def endSessionBackend (sessions : List (String × SharedSession))
    (sharedSessionId : String) (isHost : Bool) :
    List (String × SharedSession) :=
  if isHost then
    sessions.map (fun kv =>
      if kv.2.id = sharedSessionId then (kv.1, { kv.2 with is_active := false })
      else kv)
  else sessions

/-- The guard of `CodeEditor`'s code-sync effect: publish (schedule the
debounced `syncCode`) only when a session is present, no remote change is
being applied, and the local side is not a view-only guest. -/
def codeSyncEffectPublishes (sharedSession : Option SharedSession)
    (isApplyingRemoteChange isHost : Bool) : Bool :=
  match sharedSession with
  | none => false
  | some s =>
    if isApplyingRemoteChange then false
    else if !isHost && decide (s.permissions = Permission.view) then false
    else true

/-- The guard of `CodeEditor`'s language-sync effect, identical to the
code-sync guard before the `syncLanguage` call. -/
def languageSyncEffectPublishes (sharedSession : Option SharedSession)
    (isApplyingRemoteChange isHost : Bool) : Bool :=
  match sharedSession with
  | none => false
  | some s =>
    if isApplyingRemoteChange then false
    else if !isHost && decide (s.permissions = Permission.view) then false
    else true

/-- `CodeEditor.handleEditorChange`: a view-only guest's local change is
discarded (`none`); otherwise `onCodeChange` is called with `value || ''`
(the returned string). -/
def handleEditorChange (sharedSession : Option SharedSession) (isHost : Bool)
    (value : Option String) : Option String :=
  match sharedSession with
  | some s =>
    if !isHost && decide (s.permissions = Permission.view) then none
    else some (value.getD "")
  | none => some (value.getD "")

/-- The `requestType` discriminator of an AI request. -/
inductive RequestType
  | completion
  | optimization
  | debug
  | docstring
deriving DecidableEq, Repr

/-- An AI request, mirroring the `AIRequest` interface of `aiService.ts`. -/
structure AIRequest where
  code : String
  language : String
  cursorPosition : Option (Nat × Nat)
  contextCode : Option String
  requestType : RequestType
deriving DecidableEq, Repr

/-- An AI response, mirroring the `AIResponse` interface of `aiService.ts`. -/
structure AIResponse where
  suggestion : String
  explanation : String
  issue_detected : Option String
  docstring : Option String
  suggestion_type : RequestType
deriving DecidableEq, Repr

/-- `AIService.getMockResponse`: the canned fallback response for each
request kind. -/
def getMockResponse (request : AIRequest) : AIResponse :=
  match request.requestType with
  | RequestType.completion =>
    { suggestion := "  return result;",
      explanation := "Complete the function with a return statement",
      issue_detected := none, docstring := none,
      suggestion_type := RequestType.completion }
  | RequestType.optimization =>
    { suggestion := "// Optimized version using " ++
        (if request.language = "python" then "list comprehension" else "map/filter") ++
        "\nconst result = items.filter(x => x.active).map(x => x.value);",
      explanation := "Replaced nested loops with functional approach for better readability and performance",
      issue_detected := some "Nested loops can be simplified", docstring := none,
      suggestion_type := RequestType.optimization }
  | RequestType.debug =>
    { suggestion := "if (!array || array.length === 0) \x7b\n  return null;\n\x7d",
      explanation := "Added null and empty array checks to prevent runtime errors",
      issue_detected := some "Missing validation for edge cases", docstring := none,
      suggestion_type := RequestType.debug }
  | RequestType.docstring =>
    { suggestion := request.code,
      explanation := "Generated comprehensive documentation",
      issue_detected := none,
      docstring := some "/**\n * Processes user data and returns formatted result\n * @param \x7bObject\x7d userData - The user data object\n * @param \x7bstring\x7d userData.name - User\x27s name\n * @param \x7bnumber\x7d userData.age - User\x27s age\n * @returns \x7bstring\x7d Formatted user information\n * @throws \x7bError\x7d If userData is invalid\n */",
      suggestion_type := RequestType.docstring }

/-- Outcome of the `fetch` round-trip inside `getSuggestion`, as seen by the
code: the promise rejected, the response was not ok, the response body was
not valid JSON, or a message content string was extracted
(`data.choices[0]?.message?.content || ''`). -/
inductive BackendResult
  | fetchError
  | httpError
  | jsonError
  | content (s : String)
deriving DecidableEq, Repr

/-- The fields `JSON.parse` can yield for the suggestion object embedded in
the model's reply. -/
structure ParsedSuggestion where
  suggestion : String
  explanation : String
  issue_detected : Option String
  docstring : Option String
deriving DecidableEq, Repr

/-- The regex match `content.match(/\x7b[\s\S]*\x7d/)`: the (greedy) match
runs from the first brace-open to the last brace-close after it; `none` when
no such pair exists. -/
def extractJsonObject (content : String) : Option String :=
  let cs := content.data
  match cs.findIdx? (fun c => c = '\x7b') with
  | none => none
  | some i =>
    match cs.reverse.findIdx? (fun c => c = '\x7d') with
    | none => none
    | some r =>
      let j := cs.length - 1 - r
      if i < j then some ⟨(cs.drop i).take (j - i + 1)⟩ else none

/-- `AIService.getSuggestion`: with no api key, or on any thrown failure
(rejected fetch, non-ok response, invalid response JSON, or a
`JSON.parse` failure on the extracted object), the canned fallback is
returned; a parse success is returned with `suggestion_type` overridden by
the request kind; a content string with no embedded JSON object is returned
verbatim as the suggestion.  JSON parsing of the extracted object is an
external capability and is passed in as `parse` (`none` models a throw). -/
def getSuggestion (apiKey : String) (request : AIRequest)
    (backend : BackendResult) (parse : String → Option ParsedSuggestion) :
    AIResponse :=
  if apiKey = "" then getMockResponse request
  else
    match backend with
    | BackendResult.fetchError => getMockResponse request
    | BackendResult.httpError => getMockResponse request
    | BackendResult.jsonError => getMockResponse request
    | BackendResult.content content =>
      match extractJsonObject content with
      | some jsonStr =>
        match parse jsonStr with
        | some p =>
          { suggestion := p.suggestion, explanation := p.explanation,
            issue_detected := p.issue_detected, docstring := p.docstring,
            suggestion_type := request.requestType }
        | none => getMockResponse request
      | none =>
        { suggestion := content, explanation := "AI generated suggestion",
          issue_detected := none, docstring := none,
          suggestion_type := request.requestType }

/-- A concrete active, already-expired session record (created at epoch 0,
so `expires_at = 86400000` ms). -/
def exActiveSession : SharedSession :=
  { id := "sid1", session_id := "owner1", share_code := "ABCDEF",
    host_user_id := some "hostUser", guest_user_id := none,
    permissions := Permission.edit, is_active := true, connected_at := none,
    created_at := 0, expires_at := 86400000 }

/-- A concrete inactive session record. -/
def exInactiveSession : SharedSession :=
  { exActiveSession with id := "sid2", is_active := false }

/-- A concrete view-only session record. -/
def exViewSession : SharedSession :=
  { exActiveSession with permissions := Permission.view }

/-- A concrete active session with a connected guest. -/
def exGuestedSession : SharedSession :=
  { exActiveSession with guest_user_id := some "guestUser",
                         connected_at := some 10 }

/-- A concrete edit event originated by the host. -/
def exEditSync : CodeSync :=
  { id := "1000_a", shared_session_id := "sid1", user_id := "hostUser",
    code_content := "let x=1;", language := "javascript", cursor_line := none,
    cursor_column := none, action := SyncAction.edit, created_at := 1000 }

/-- A concrete completion request. -/
def exCompletionRequest : AIRequest :=
  { code := "function add(a, b)", language := "javascript",
    cursorPosition := some (1, 19), contextCode := none,
    requestType := RequestType.completion }

theorem getLast?_drop_of_lt (l : List α) (k : Nat) (h : k < l.length) :
    (l.drop k).getLast? = l.getLast? := by
  induction l generalizing k with
  | nil => simp at h
  | cons a t ih =>
    cases k with
    | zero => simp
    | succ k =>
      simp only [List.length_cons, Nat.succ_lt_succ_iff] at h
      rw [List.drop_succ_cons, ih k h]
      have ht : t ≠ [] := by
        intro hnil
        rw [hnil] at h
        simp at h
      rw [List.getLast?_cons, List.getLast?_eq_getLast t ht]
      simp

theorem appendCapped_length_le (syncs : List CodeSync) (s : CodeSync) :
    (appendCapped syncs s).length ≤ 50 := by
  simp only [appendCapped, sliceLast, List.length_drop]
  omega

theorem appendCapped_getLast? (syncs : List CodeSync) (s : CodeSync) :
    (appendCapped syncs s).getLast? = some s := by
  rw [appendCapped, sliceLast, getLast?_drop_of_lt]
  · simp
  · simp
    omega

theorem appendCapped_suffix (syncs : List CodeSync) (s : CodeSync) :
    ∃ k, appendCapped syncs s = (syncs ++ [s]).drop k :=
  ⟨(syncs ++ [s]).length - 50, rfl⟩

theorem foldl_appendCapped_getLast? (syncs : List CodeSync)
    (events : List CodeSync) (e : CodeSync) :
    (List.foldl appendCapped syncs (events ++ [e])).getLast? = some e := by
  rw [List.foldl_append]
  simp [appendCapped_getLast?]

/-- C4: in the polling-backed channel every publish appends the new event and
truncates the session log to its most recent 50 entries: the log length
never exceeds 50, the last log entry is the event just published, truncation
keeps a suffix (drops oldest first), and after any sequence of publishes
(such as 51 of them) the last retained entry is the most recent one. -/
theorem sync_log_retention (syncs : List CodeSync)
    (userId sharedSessionId code lang : String) (cl cc : Option Int)
    (i : String) (now : Nat) (events : List CodeSync) (e : CodeSync) :
    (syncCode syncs userId sharedSessionId code lang cl cc i now).length ≤ 50 ∧
    (syncLanguage syncs userId sharedSessionId lang i now).length ≤ 50 ∧
    (syncCode syncs userId sharedSessionId code lang cl cc i now).getLast? =
      some ({ id := i, shared_session_id := sharedSessionId, user_id := userId,
              code_content := code, language := lang, cursor_line := cl,
              cursor_column := cc, action := SyncAction.edit,
              created_at := now } : CodeSync) ∧
    (∃ k, syncCode syncs userId sharedSessionId code lang cl cc i now =
      (syncs ++ [({ id := i, shared_session_id := sharedSessionId,
                    user_id := userId, code_content := code, language := lang,
                    cursor_line := cl, cursor_column := cc,
                    action := SyncAction.edit,
                    created_at := now } : CodeSync)]).drop k) ∧
    (List.foldl appendCapped syncs (events ++ [e])).getLast? = some e :=
  ⟨appendCapped_length_le _ _, appendCapped_length_le _ _,
   appendCapped_getLast? _ _, appendCapped_suffix _ _,
   foldl_appendCapped_getLast? _ _ _⟩

/-- C9: every generated share code is exactly 6 characters, each drawn from
the fixed 32-character alphabet, which excludes the ambiguous glyphs
0, O, 1 and I. -/
theorem share_code_alphabet_spec (rand : Fin 6 → Fin 32) :
    (generateShareCode rand).length = 6 ∧
    (∀ c : Char, c ∈ (generateShareCode rand).data → c ∈ shareCodeChars.data) ∧
    shareCodeChars.length = 32 ∧
    ('0' ∉ shareCodeChars.data ∧ 'O' ∉ shareCodeChars.data ∧
      '1' ∉ shareCodeChars.data ∧ 'I' ∉ shareCodeChars.data) := by
  refine ⟨?_, ?_, by decide, by decide⟩
  · exact List.length_ofFn _
  · intro c hc
    simp only [generateShareCode, List.mem_ofFn] at hc
    obtain ⟨j, hj⟩ := hc
    rw [← hj]
    exact List.get_mem _ _ _

/-- Witness for C9 at the constant draw `0`: the code has length 6 and its
character is in the alphabet. -/
theorem share_code_alphabet_spec_witness :
    (generateShareCode (fun _ => 0)).length = 6 ∧ 'A' ∈ shareCodeChars.data :=
  ⟨(share_code_alphabet_spec (fun _ => 0)).1,
   (share_code_alphabet_spec (fun _ => 0)).2.1 'A' (by decide)⟩

theorem dispatchSync_originId (s : CodeSync) (d : Delivery)
    (h : dispatchSync s = some d) : d.originId = s.user_id := by
  obtain ⟨i, sid, uid, code, lang, cl, cc, act, ca⟩ := s
  cases act
  · rw [← Option.some.inj h]
    rfl
  · cases cl with
    | none => simp [dispatchSync] at h
    | some l =>
      cases cc with
      | none => simp [dispatchSync] at h
      | some c =>
        rw [← Option.some.inj h]
        rfl
  · rw [← Option.some.inj h]
    rfl

theorem dispatchSync_isSome_of_wf (s : CodeSync)
    (hwf : s.action = SyncAction.cursor →
      s.cursor_line.isSome ∧ s.cursor_column.isSome) :
    (dispatchSync s).isSome := by
  obtain ⟨i, sid, uid, code, lang, cl, cc, act, ca⟩ := s
  cases act
  · simp [dispatchSync]
  · obtain ⟨h1, h2⟩ := hwf rfl
    cases cl with
    | none => simp at h1
    | some l =>
      cases cc with
      | none => simp at h2
      | some c => simp [dispatchSync]
  · simp [dispatchSync]

/-- C1: delivery of a published sync event happens exactly to subscribers
whose identity differs from the origin: the realtime handler fires a
callback iff `user_id` is not the local identity (and then delivers the
event's own payload), a fresh-cursor polling tick delivers the event to
every other subscriber, and no delivery of either backend ever carries the
subscriber's own identity as origin. -/
theorem echo_suppression_delivery_iff (selfId : String) (sync : CodeSync)
    (hwf : sync.action = SyncAction.cursor →
      sync.cursor_line.isSome ∧ sync.cursor_column.isSome) :
    ((handleRealtimeInsert selfId sync).isSome ↔ sync.user_id ≠ selfId) ∧
    (sync.user_id ≠ selfId →
      handleRealtimeInsert selfId sync = dispatchSync sync) ∧
    (∀ syncs : List CodeSync, sync ∈ syncs → sync.user_id ≠ selfId →
      ∃ d, dispatchSync sync = some d ∧ d ∈ (pollTick selfId none syncs).1) ∧
    (∀ st : Option String, ∀ syncs : List CodeSync, ∀ d : Delivery,
      d ∈ (pollTick selfId st syncs).1 → d.originId ≠ selfId) := by
  refine ⟨⟨?_, ?_⟩, ?_, ?_, ?_⟩
  · intro h hke
    unfold handleRealtimeInsert at h
    rw [if_pos hke] at h
    simp at h
  · intro hne
    unfold handleRealtimeInsert
    rw [if_neg hne]
    exact dispatchSync_isSome_of_wf sync hwf
  · intro hne
    unfold handleRealtimeInsert
    rw [if_neg hne]
  · intro syncs hmem hne
    obtain ⟨d, hd⟩ := Option.isSome_iff_exists.mp
      (dispatchSync_isSome_of_wf sync hwf)
    refine ⟨d, hd, ?_⟩
    simp only [pollTick]
    rw [List.mem_filterMap]
    refine ⟨sync, ?_, hd⟩
    simp only [pollFilter]
    rw [List.mem_filter]
    exact ⟨hmem, by simpa using hne⟩
  · intro st syncs d hd
    simp only [pollTick] at hd
    rw [List.mem_filterMap] at hd
    obtain ⟨s, hs, hds⟩ := hd
    have huser : s.user_id ≠ selfId := by
      cases st with
      | none =>
        simp only [pollFilter] at hs
        rw [List.mem_filter] at hs
        simpa using hs.2
      | some last =>
        simp only [pollFilter] at hs
        rw [List.mem_filter] at hs
        have h2 := hs.2
        simp at h2
        exact h2.2
    rw [dispatchSync_originId s d hds]
    exact huser

/-- Witness for C1 at a host-originated edit event observed by a guest. -/
theorem echo_suppression_delivery_iff_witness :
    ((handleRealtimeInsert "guestUser" exEditSync).isSome ↔
      exEditSync.user_id ≠ "guestUser") ∧
    (∃ d, dispatchSync exEditSync = some d ∧
      d ∈ (pollTick "guestUser" none [exEditSync]).1) :=
  ⟨(echo_suppression_delivery_iff "guestUser" exEditSync (by decide)).1,
   (echo_suppression_delivery_iff "guestUser" exEditSync (by decide)).2.2.1
     [exEditSync] (by simp) (by decide)⟩

/-- C10: a polling tick with the last-seen cursor still unset delivers every
retained non-self event of the log (replaying the retained history, at most
50 events, in log order); a tick with cursor `c` delivers exactly the
non-self events with id lexicographically greater than `c`; and after a tick
the cursor becomes the id of the last processed event. -/
theorem poll_first_tick_replays_history (selfId : String)
    (syncs : List CodeSync) (c : String) :
    (∀ s : CodeSync, s ∈ pollFilter selfId none syncs ↔
      s ∈ syncs ∧ s.user_id ≠ selfId) ∧
    (pollFilter selfId none syncs).Sublist syncs ∧
    (syncs.length ≤ 50 → (pollTick selfId none syncs).1.length ≤ 50) ∧
    (∀ s : CodeSync, s ∈ pollFilter selfId (some c) syncs ↔
      s ∈ syncs ∧ c < s.id ∧ s.user_id ≠ selfId) ∧
    (∀ st : Option String, ∀ s : CodeSync,
      (pollFilter selfId st syncs).getLast? = some s →
      (pollTick selfId st syncs).2 = some s.id) := by
  refine ⟨?_, ?_, ?_, ?_, ?_⟩
  · intro s
    simp [pollFilter, List.mem_filter]
  · exact List.filter_sublist _
  · intro hlen
    have h1 : (pollTick selfId none syncs).1.length ≤
        (pollFilter selfId none syncs).length := by
      simp only [pollTick]
      exact List.length_filterMap_le _ _
    have h2 : (pollFilter selfId none syncs).length ≤ syncs.length := by
      simp only [pollFilter]
      exact List.length_filter_le _ _
    omega
  · intro s
    simp [pollFilter, List.mem_filter, and_assoc]
  · intro st s hlast
    simp only [pollTick, hlast]

/-- Witness for C10: one host edit in the log is replayed to a fresh guest
subscriber within the retention cap, and the cursor advances to its id. -/
theorem poll_first_tick_replays_history_witness :
    ([exEditSync].length ≤ 50 ∧
      (pollTick "guestUser" none [exEditSync]).1.length ≤ 50) ∧
    ((pollFilter "guestUser" none [exEditSync]).getLast? = some exEditSync ∧
      (pollTick "guestUser" none [exEditSync]).2 = some exEditSync.id) :=
  ⟨⟨by decide,
    (poll_first_tick_replays_history "guestUser" [exEditSync] "z").2.2.1
      (by decide)⟩,
   ⟨by decide,
    (poll_first_tick_replays_history "guestUser" [exEditSync] "z").2.2.2.2
      none exEditSync (by decide)⟩⟩

/-- C2: a guest (isHost = false) whose session permission is `view` never
reaches a publish call: the code-sync effect and the language-sync effect
both bail out before `syncCode` / `syncLanguage`, and `handleEditorChange`
discards the local change. -/
theorem view_guest_never_publishes (s : SharedSession) (isApplying : Bool)
    (value : Option String) (hperm : s.permissions = Permission.view) :
    codeSyncEffectPublishes (some s) isApplying false = false ∧
    languageSyncEffectPublishes (some s) isApplying false = false ∧
    handleEditorChange (some s) false value = none := by
  refine ⟨?_, ?_, ?_⟩
  · simp [codeSyncEffectPublishes, hperm]
  · simp [languageSyncEffectPublishes, hperm]
  · simp [handleEditorChange, hperm]

/-- Witness for C2 at a concrete view-only session. -/
theorem view_guest_never_publishes_witness :
    exViewSession.permissions = Permission.view ∧
    codeSyncEffectPublishes (some exViewSession) false false = false ∧
    languageSyncEffectPublishes (some exViewSession) false false = false ∧
    handleEditorChange (some exViewSession) false (some "x") = none :=
  ⟨rfl,
   (view_guest_never_publishes exViewSession false (some "x") rfl).1,
   (view_guest_never_publishes exViewSession false (some "x") rfl).2.1,
   (view_guest_never_publishes exViewSession false (some "x") rfl).2.2⟩

/-- C3 counterexample: `joinSharedSession` never consults `expires_at`.  A
record created at epoch 0 (so expired at 86400000 ms) that is still marked
active is joined successfully at a much later `now`, instead of failing as
not-found. -/
theorem join_expired_session_succeeds :
    exActiveSession.expires_at < 99999999999 ∧
    exActiveSession.is_active = true ∧
    (joinSharedSession [("shared_session_ABCDEF", exActiveSession)]
        "guestUser" 99999999999 "ABCDEF").isOk = true := by
  refine ⟨by decide, rfl, ?_⟩
  rfl

/-- C3 amended: `joinSharedSession` (mock branch) fails with the distinct
errors `'Session not found'` for an unknown code and `'Session is not
active'` for an inactive record, and succeeds for any active record — the
expiry time is never checked on this or any other read path, so an expired
active record is still joined. -/
theorem join_error_paths (store : List (String × SharedSession))
    (userId : String) (now : Nat) (shareCode : String) :
    (store.lookup ("shared_session_" ++ strToUpper shareCode) = none →
      joinSharedSession store userId now shareCode =
        Except.error JoinError.sessionNotFound) ∧
    (∀ s : SharedSession,
      store.lookup ("shared_session_" ++ strToUpper shareCode) = some s →
      s.is_active = false →
      joinSharedSession store userId now shareCode =
        Except.error JoinError.sessionNotActive) ∧
    (∀ s : SharedSession,
      store.lookup ("shared_session_" ++ strToUpper shareCode) = some s →
      s.is_active = true →
      (joinSharedSession store userId now shareCode).isOk = true) ∧
    JoinError.sessionNotFound ≠ JoinError.sessionNotActive := by
  refine ⟨?_, ?_, ?_, by decide⟩
  · intro hnone
    simp [joinSharedSession, hnone]
  · intro s hsome hinact
    simp [joinSharedSession, hsome, hinact]
  · intro s hsome hact
    simp [joinSharedSession, hsome, hact, Except.isOk, Except.toBool]

/-- Witness for C3 (amended) exercising all three paths on concrete stores. -/
theorem join_error_paths_witness :
    joinSharedSession [] "guestUser" 5 "ABCDEF" =
      Except.error JoinError.sessionNotFound ∧
    joinSharedSession [("shared_session_ABCDEF", exInactiveSession)]
      "guestUser" 5 "ABCDEF" = Except.error JoinError.sessionNotActive ∧
    (joinSharedSession [("shared_session_ABCDEF", exActiveSession)]
      "guestUser" 5 "ABCDEF").isOk = true :=
  ⟨(join_error_paths [] "guestUser" 5 "ABCDEF").1 (by decide),
   (join_error_paths [("shared_session_ABCDEF", exInactiveSession)]
      "guestUser" 5 "ABCDEF").2.1 exInactiveSession (by decide) rfl,
   (join_error_paths [("shared_session_ABCDEF", exActiveSession)]
      "guestUser" 5 "ABCDEF").2.2.1 exActiveSession (by decide) rfl⟩

/-- C5 counterexample: the join path uppercases but never trims.  For a
stored active session with code `ABCDEF`, the input `"abcdef "` — whose
trimmed case-insensitive normalisation is exactly `ABCDEF` — fails with
not-found instead of joining. -/
theorem join_untrimmed_input_fails :
    strToUpper (strTrim "abcdef ") = "ABCDEF" ∧
    strToUpper (strTrim "abcdef ") = exActiveSession.share_code ∧
    joinSharedSession [("shared_session_ABCDEF", exActiveSession)]
      "guestUser" 5 "abcdef " = Except.error JoinError.sessionNotFound := by
  refine ⟨?_, ?_, ?_⟩ <;> rfl

/-- C5 amended: for a stored active session with (uppercase) code `C`,
`joinSharedSession` called with any case variant of `C` (the code is
normalised case-insensitively, but not trimmed) returns the session with
its share code intact, `guest_user_id` set to the caller and `connected_at`
set to the join time, and writes that record back to the store. -/
theorem join_case_insensitive (store : List (String × SharedSession))
    (C input userId : String) (s : SharedSession) (now : Nat)
    (hvar : strToUpper input = C)
    (hkey : store.lookup ("shared_session_" ++ C) = some s)
    (hcode : s.share_code = C)
    (hact : s.is_active = true) :
    ∃ s' store',
      joinSharedSession store userId now input = Except.ok (s', store') ∧
      s'.share_code = C ∧
      s'.guest_user_id = some userId ∧
      s'.connected_at = some now ∧
      store'.lookup ("shared_session_" ++ C) = some s' := by
  refine ⟨{ s with guest_user_id := some userId, connected_at := some now },
    lsSet store ("shared_session_" ++ C)
      { s with guest_user_id := some userId, connected_at := some now },
    ?_, hcode, rfl, rfl, ?_⟩
  · simp [joinSharedSession, hvar, hkey, hact]
  · simp [lsSet, List.lookup]

/-- Witness for C5 (amended): the lowercase variant of `ABCDEF` joins the
stored session. -/
theorem join_case_insensitive_witness :
    ∃ s' store',
      joinSharedSession [("shared_session_ABCDEF", exActiveSession)]
        "guestUser" 7 "abcdef" = Except.ok (s', store') ∧
      s'.share_code = "ABCDEF" ∧
      s'.guest_user_id = some "guestUser" ∧
      s'.connected_at = some 7 ∧
      store'.lookup ("shared_session_ABCDEF") = some s' :=
  join_case_insensitive [("shared_session_ABCDEF", exActiveSession)]
    "ABCDEF" "abcdef" "guestUser" exActiveSession 7 (by decide) (by decide)
    rfl rfl

/-- C6 counterexample: the local registry performs no collision check.  With
an active guested session already stored under code `ABCDEF`, a create call
whose freshly generated code is again `ABCDEF` is neither rejected nor
retried: it succeeds and silently overwrites the existing record. -/
theorem create_collision_overwrites :
    exGuestedSession.is_active = true ∧
    (createSharedSession [("shared_session_ABCDEF", exGuestedSession)]
        "host2" "owner2" Permission.edit "uuid2" "ABCDEF" 100).2.lookup
        "shared_session_ABCDEF" =
      some (createSharedSession [("shared_session_ABCDEF", exGuestedSession)]
        "host2" "owner2" Permission.edit "uuid2" "ABCDEF" 100).1 ∧
    (createSharedSession [("shared_session_ABCDEF", exGuestedSession)]
        "host2" "owner2" Permission.edit "uuid2" "ABCDEF" 100).1 ≠
      exGuestedSession ∧
    ("shared_session_ABCDEF", exGuestedSession) ∉
      (createSharedSession [("shared_session_ABCDEF", exGuestedSession)]
        "host2" "owner2" Permission.edit "uuid2" "ABCDEF" 100).2 := by
  refine ⟨rfl, rfl, by decide, by decide⟩

/-- C6 amended: `createSharedSession` (mock branch) always persists a fresh
record with `active = true`, no guest, and `expires_at = now + 24h` under
the key derived from the generated code; a collision with an existing code
is not detected — the prior record is overwritten (the store keeps at most
one record per code only because records are keyed by code). -/
theorem create_session_postconditions (store : List (String × SharedSession))
    (userId sessionId : String) (perm : Permission) (uuid code : String)
    (now : Nat) :
    (createSharedSession store userId sessionId perm uuid code now).1.is_active
      = true ∧
    (createSharedSession store userId sessionId perm uuid code now).1.guest_user_id
      = none ∧
    (createSharedSession store userId sessionId perm uuid code now).1.connected_at
      = none ∧
    (createSharedSession store userId sessionId perm uuid code now).1.expires_at
      = now + 24 * 60 * 60 * 1000 ∧
    (createSharedSession store userId sessionId perm uuid code now).1.share_code
      = code ∧
    (createSharedSession store userId sessionId perm uuid code now).1.host_user_id
      = some userId ∧
    (createSharedSession store userId sessionId perm uuid code now).2.lookup
        ("shared_session_" ++ code) =
      some (createSharedSession store userId sessionId perm uuid code now).1 := by
  refine ⟨rfl, rfl, rfl, rfl, rfl, rfl, ?_⟩
  simp [createSharedSession, lsSet, List.lookup]

/-- C7 counterexample: in mock mode `endSession` only removes the session's
sync log; even the host's call leaves the session record untouched and
still active. -/
theorem end_session_mock_host_noop :
    exGuestedSession.id = "sid1" ∧
    exGuestedSession.is_active = true ∧
    (endSessionMock [("shared_session_ABCDEF", exGuestedSession)]
        [("code_sync_sid1", [exEditSync])] "sid1" true).1 =
      [("shared_session_ABCDEF", exGuestedSession)] ∧
    (endSessionMock [("shared_session_ABCDEF", exGuestedSession)]
        [("code_sync_sid1", [exEditSync])] "sid1" true).2 = [] := by
  refine ⟨rfl, rfl, rfl, by decide⟩

/-- C7 amended: in the backend branch the host's `endSession` flips
`is_active` to `false` on the targeted record and changes nothing else,
records with other ids are untouched, and a guest's call is a no-op; in the
mock branch the session store is never modified (only the sync log is
removed), whatever `isHost` is. -/
theorem end_session_backend_frame (sessions : List (String × SharedSession))
    (sid : String) :
    endSessionBackend sessions sid false = sessions ∧
    (∀ k : String, ∀ s : SharedSession, (k, s) ∈ sessions → s.id = sid →
      (k, { s with is_active := false }) ∈ endSessionBackend sessions sid true) ∧
    (∀ k : String, ∀ s : SharedSession, (k, s) ∈ sessions → s.id ≠ sid →
      (k, s) ∈ endSessionBackend sessions sid true) ∧
    (∀ syncLogs : List (String × List CodeSync), ∀ isHost : Bool,
      (endSessionMock sessions syncLogs sid isHost).1 = sessions) := by
  refine ⟨rfl, ?_, ?_, fun _ _ => rfl⟩
  · intro k s hmem hid
    simp only [endSessionBackend, if_pos rfl]
    refine List.mem_map.mpr ⟨(k, s), hmem, ?_⟩
    simp [hid]
  · intro k s hmem hid
    simp only [endSessionBackend, if_pos rfl]
    refine List.mem_map.mpr ⟨(k, s), hmem, ?_⟩
    simp [hid]

/-- Witness for C7 (amended): host deactivates the stored record, the guest
call leaves the store as it was. -/
theorem end_session_backend_frame_witness :
    endSessionBackend [("shared_session_ABCDEF", exGuestedSession)] "sid1"
      false = [("shared_session_ABCDEF", exGuestedSession)] ∧
    ("shared_session_ABCDEF", { exGuestedSession with is_active := false }) ∈
      endSessionBackend [("shared_session_ABCDEF", exGuestedSession)] "sid1"
        true ∧
    (endSessionMock [("shared_session_ABCDEF", exGuestedSession)]
      [("code_sync_sid1", [exEditSync])] "sid1" true).1 =
      [("shared_session_ABCDEF", exGuestedSession)] :=
  ⟨(end_session_backend_frame [("shared_session_ABCDEF", exGuestedSession)]
      "sid1").1,
   (end_session_backend_frame [("shared_session_ABCDEF", exGuestedSession)]
      "sid1").2.1 "shared_session_ABCDEF" exGuestedSession (by simp) rfl,
   (end_session_backend_frame [("shared_session_ABCDEF", exGuestedSession)]
      "sid1").2.2.2 [("code_sync_sid1", [exEditSync])] true⟩

/-- C8 counterexample: with a key configured, an OK response whose content
contains no JSON object does not yield the canned fallback — the raw
content is returned as the suggestion with a generic explanation. -/
theorem suggestion_plain_content_not_canned :
    getSuggestion "key" exCompletionRequest
        (BackendResult.content "use a loop") (fun _ => none) =
      { suggestion := "use a loop", explanation := "AI generated suggestion",
        issue_detected := none, docstring := none,
        suggestion_type := RequestType.completion } ∧
    getSuggestion "key" exCompletionRequest
        (BackendResult.content "use a loop") (fun _ => none) ≠
      getMockResponse exCompletionRequest := by
  refine ⟨rfl, by decide⟩

/-- C8 amended: `getSuggestion` is total (never raises) and always stamps
the response with the request kind; it substitutes the canned fallback when
no api key is configured, when the fetch fails, when the response is not ok
or not valid JSON, and when the extracted JSON object fails to parse; only
an OK content with no embedded JSON object is returned verbatim instead of
canned. -/
theorem suggestion_fallback_total (apiKey : String) (request : AIRequest)
    (backend : BackendResult) (parse : String → Option ParsedSuggestion)
    (content : String) :
    (getSuggestion apiKey request backend parse).suggestion_type
      = request.requestType ∧
    getSuggestion "" request backend parse = getMockResponse request ∧
    getSuggestion apiKey request BackendResult.fetchError parse
      = getMockResponse request ∧
    getSuggestion apiKey request BackendResult.httpError parse
      = getMockResponse request ∧
    getSuggestion apiKey request BackendResult.jsonError parse
      = getMockResponse request ∧
    ((extractJsonObject content).isSome →
      getSuggestion apiKey request (BackendResult.content content)
        (fun _ => none) = getMockResponse request) ∧
    (getMockResponse request).suggestion_type = request.requestType := by
  have hmock : (getMockResponse request).suggestion_type = request.requestType := by
    unfold getMockResponse
    cases hrt : request.requestType <;> simp [hrt]
  refine ⟨?_, ?_, ?_, ?_, ?_, ?_, hmock⟩
  · unfold getSuggestion
    by_cases hk : apiKey = ""
    · simp [hk, hmock]
    · simp only [if_neg hk]
      cases backend with
      | fetchError => exact hmock
      | httpError => exact hmock
      | jsonError => exact hmock
      | content cnt =>
        cases hext : extractJsonObject cnt with
        | none => simp [hext]
        | some j =>
          cases hp : parse j with
          | none => simp [hext, hp, hmock]
          | some p => simp [hext, hp]
  · simp [getSuggestion]
  · unfold getSuggestion
    by_cases hk : apiKey = "" <;> simp [hk]
  · unfold getSuggestion
    by_cases hk : apiKey = "" <;> simp [hk]
  · unfold getSuggestion
    by_cases hk : apiKey = "" <;> simp [hk]
  · intro hext
    unfold getSuggestion
    by_cases hk : apiKey = ""
    · simp [hk]
    · obtain ⟨j, hj⟩ := Option.isSome_iff_exists.mp hext
      simp [if_neg hk, hj]

/-- Witness for C8 (amended): a content string that does contain a JSON
object but fails to parse falls back to the canned response. -/
theorem suggestion_fallback_total_witness :
    (extractJsonObject "\x7bnot json\x7d").isSome = true ∧
    getSuggestion "key" exCompletionRequest
        (BackendResult.content "\x7bnot json\x7d") (fun _ => none) =
      getMockResponse exCompletionRequest ∧
    getSuggestion "" exCompletionRequest BackendResult.fetchError
        (fun _ => none) = getMockResponse exCompletionRequest :=
  ⟨by decide,
   (suggestion_fallback_total "key" exCompletionRequest
      (BackendResult.content "\x7bnot json\x7d") (fun _ => none)
      "\x7bnot json\x7d").2.2.2.2.2.1 (by decide),
   (suggestion_fallback_total "" exCompletionRequest BackendResult.fetchError
      (fun _ => none) "").2.1⟩

end Quick
